import Mathlib

/-!
Verification development for the hikvision-doorbell MQTT bridge.

Shallow embedding of the repository's core logic:
  * `helpers.retry_async_yield` — the retry-as-async-generator primitive,
    modelled as a function from an attempt oracle to the finite trace of
    yielded items plus the terminal behaviour of the generator
    (normal stop, quiet stop, or raising the last caught exception).
  * `workers/doorbell.Doorbell` — the dedup publish layer
    (`publish_if_changed`), availability publishing, the device-info and
    call-status attempt handlers, the lock command cycle, and the
    door-control caller `open_close_doors`.
  * `mqtt_bridge.MQTTBridge.publish_discovery_once` — the startup
    discovery/initial-lock-state publication path.

State that in Python lives on `self` (dedup cache, health flag, resync
flag) is threaded explicitly through a `World` record; each MQTT publish
forwarded to the transport is recorded as a `PublishEvent`, and each value
handed to the dedup layer is recorded in a `submitted` log, so that both
the dedup-layer and transport-level behaviours are visible.
-/

/-- One MQTT publish forwarded to the transport
(`mqtt.publish(topic, value, qos=1, retain=retain)`). -/
structure PublishEvent where
  topic : String
  payload : String
  qos : Nat
  retain : Bool
  deriving DecidableEq, Repr

/-- The dedup cache `state_cache : Dict[str, str]`, modelled as an
association list keyed by topic. -/
abbrev Cache := List (String × String)

/-- `cache.get(topic)` on the Python dict. -/
def cacheGet : Cache → String → Option String
  | [], _ => none
  | (k, x) :: rest, t => if k = t then some x else cacheGet rest t

/-- `cache[topic] = value` on the Python dict. -/
def cacheSet : Cache → String → String → Cache
  | [], t, v => [(t, v)]
  | (k, x) :: rest, t, v =>
      if k = t then (t, v) :: rest else (k, x) :: cacheSet rest t v

/-- `Doorbell.publish_if_changed` / `MQTTBridge._publish_if_changed`
(doorbell.py lines 87-99, mqtt_bridge.py lines 73-78): if the cached value
for `topic` equals `value`, return doing nothing; otherwise store `value`
in the cache and forward one publish with qos 1 and the given retain flag
(every call site uses the default `retain=True`). Returns the new cache and
the list of publishes forwarded to the transport. -/
def publish_if_changed (cache : Cache) (topic value : String) (retain : Bool) :
    Cache × List PublishEvent :=
  if cacheGet cache topic = some value then
    (cache, [])
  else
    (cacheSet cache topic value, [⟨topic, value, 1, retain⟩])

/-- Count the transport publishes carrying a given topic and payload. -/
def countPub (evs : List PublishEvent) (t p : String) : Nat :=
  evs.countP fun e => e.topic == t && e.payload == p

/-- `MqttLockDiscoveryState` (models/mqtt.py lines 143-148). -/
inductive MqttLockDiscoveryState where
  | lock
  | unlock
  | jammed
  | locked
  | unlocked
  deriving DecidableEq, Repr

/-- The `.value` of each `MqttLockDiscoveryState` member. -/
def MqttLockDiscoveryState.value : MqttLockDiscoveryState → String
  | .lock => "LOCK"
  | .unlock => "UNLOCK"
  | .jammed => "JAMMED"
  | .locked => "LOCKED"
  | .unlocked => "UNLOCKED"

/-- `CallButtonStates` (models/hikvision.py lines 11-15). -/
inductive CallButtonStates where
  | released
  | pressed
  | busy
  | unknown
  deriving DecidableEq, Repr

/-- The `.value` of each `CallButtonStates` member. -/
def CallButtonStates.value : CallButtonStates → String
  | .released => "released"
  | .pressed => "pressed"
  | .busy => "busy"
  | .unknown => "unknown"

/-- `CallInfo` (models/hikvision.py lines 18-22). -/
inductive CallInfo where
  | idle
  | ring
  | calling
  | error
  deriving DecidableEq, Repr

/-- The `.value` of each `CallInfo` member (the raw call-status name). -/
def CallInfo.value : CallInfo → String
  | .idle => "idle"
  | .ring => "ring"
  | .calling => "onCall"
  | .error => "error"

/-- `CallInfo.to_mqtt_event_discovery_event_type`
(models/hikvision.py lines 24-35): `json.dumps(\x7b"event_type": m\x7d)`
where m is the mapped `CallButtonStates` value. -/
def CallInfo.to_mqtt_event_discovery_event_type (c : CallInfo) : String :=
  "\x7b\"event_type\": \"" ++
    (match c with
      | .idle => CallButtonStates.released
      | .ring => CallButtonStates.pressed
      | .calling => CallButtonStates.busy
      | .error => CallButtonStates.unknown).value ++
    "\"\x7d"

/-- `DoorInfo` (models/hikvision.py lines 38-41). -/
inductive DoorInfo where
  | opened
  | closed
  | jammed
  deriving DecidableEq, Repr

/-- `DoorInfo.to_mqtt_lock_discovery_state`
(models/hikvision.py lines 43-49). -/
def DoorInfo.to_mqtt_lock_discovery_state : DoorInfo → MqttLockDiscoveryState
  | .opened => .unlock
  | .closed => .locked
  | .jammed => .jammed

/-- `DeviceInfo` (models/hikvision.py lines 52-76); only the two required
fields matter for the worker logic, which merely stores the value. -/
structure DeviceInfo where
  device_name : String
  device_id : String
  deriving DecidableEq, Repr

/-- The transient httpx error kinds passed to `retry_async_yield`
(doorbell.py lines 168-171): `httpx.ConnectError`, `httpx.ConnectTimeout`,
`httpx.ReadError`, `httpx.ReadTimeout`. -/
inductive HttpxError where
  | connectError
  | connectTimeout
  | readError
  | readTimeout
  deriving DecidableEq, Repr

/-- The outcome of calling the wrapped async function once: it either
raises an exception from the classified-as-transient tuple, or returns an
optional value (`None` or a value). -/
inductive AttemptOutcome (ε α : Type) where
  | raises (e : ε)
  | returns (v : Option α)
  deriving DecidableEq, Repr

/-- How the generator produced by `retry_async_yield` terminates once its
yields are exhausted: `success` — it returned right after yielding a value;
`quiet` — the attempt loop ended with no caught exception (plain stop);
`failure e` — the loop ended and `raise last_exception` re-raises `e` into
the consumer. -/
inductive RetryTerminal (ε : Type) where
  | success
  | quiet
  | failure (e : ε)
  deriving DecidableEq, Repr

/-- The observable behaviour of one generator produced by
`retry_async_yield`: the list of yielded items in order (`none` is the
yielded Python `None` marker), the terminal behaviour after the last yield,
and how many times the wrapped operation was invoked. -/
structure RetryTrace (ε α : Type) where
  yields : List (Option α)
  terminal : RetryTerminal ε
  calls : Nat
  deriving DecidableEq, Repr

/-- The attempt loop of `retry_async_yield` (helpers.py lines 31-53).
`op` gives the outcome of the wrapped call on each 1-based attempt number,
`attempt` is the current attempt number, `remaining` the attempts left,
`lastExc` the `last_exception` variable. On a non-None result the value is
yielded and the generator returns; on a raised transient exception
`last_exception` is updated; in both failure shapes `None` is yielded and
the loop continues; after the loop the last caught exception, if any, is
raised. -/
def retryGo (op : Nat → AttemptOutcome ε α) :
    Nat → Nat → Option ε → RetryTrace ε α
  | _, 0, lastExc =>
      ⟨[], (match lastExc with
        | some e => RetryTerminal.failure e
        | none => RetryTerminal.quiet), 0⟩
  | attempt, r + 1, lastExc =>
      match op attempt with
      | .returns (some v) => ⟨[some v], RetryTerminal.success, 1⟩
      | .returns none =>
          let t := retryGo op (attempt + 1) r lastExc
          ⟨none :: t.yields, t.terminal, t.calls + 1⟩
      | .raises e =>
          let t := retryGo op (attempt + 1) r (some e)
          ⟨none :: t.yields, t.terminal, t.calls + 1⟩

/-- `retry_async_yield(attempts, delay, exceptions)` applied to an
operation (helpers.py lines 9-57): the full trace of the resulting async
generator. The inter-attempt delay only suspends and does not affect the
yielded sequence, so it does not appear in the model. -/
def retry_async_yield (attempts : Nat) (op : Nat → AttemptOutcome ε α) :
    RetryTrace ε α :=
  retryGo op 1 attempts none

example :
    retry_async_yield 3 (fun _ => AttemptOutcome.raises HttpxError.readError)
      = (⟨[none, none, none], RetryTerminal.failure HttpxError.readError, 3⟩ :
          RetryTrace HttpxError Unit) := by
  decide

example :
    retry_async_yield 3 (fun i =>
        if i = 2 then AttemptOutcome.returns (some DoorInfo.opened)
        else AttemptOutcome.returns none)
      = (⟨[none, some DoorInfo.opened], RetryTerminal.success, 2⟩ :
          RetryTrace HttpxError DoorInfo) := by
  decide

/-- The lock entity's availability topic, built from the default settings
(`MQTT_BASE_TOPIC=home/hikvision_doorbell`, `DEVICE_LOCK_NAME=lock`) as in
doorbell.py lines 60-63. -/
def lockAvailabilityTopic : String := "home/hikvision_doorbell/lock/availability"

/-- The ring entity's availability topic (doorbell.py lines 50-53,
`DEVICE_SENSOR_NAME=ring`). -/
def ringAvailabilityTopic : String := "home/hikvision_doorbell/ring/availability"

/-- The lock entity's state topic (doorbell.py line 68). -/
def lockStateTopic : String := "home/hikvision_doorbell/lock/state"

/-- The ring entity's state topic (doorbell.py line 58). -/
def ringStateTopic : String := "home/hikvision_doorbell/ring/state"

/-- The lock entity's command topic (doorbell.py line 67). -/
def lockCommandTopic : String := "home/hikvision_doorbell/lock/set"

/-- The mutable state of the `Doorbell` worker that the claims are about,
plus two logs: `submitted` records every (topic, value) pair handed to the
dedup layer (`publish_if_changed` call arguments, in order), `delivered`
records every publish actually forwarded to the MQTT transport. -/
structure World where
  device_healthy : Bool
  reseted_availability : Bool
  device_info : Option DeviceInfo
  state_cache : Cache
  submitted : List (String × String)
  delivered : List PublishEvent
  deriving DecidableEq, Repr

/-- One call `self.publish_if_changed(topic, value)` on the worker state
(always with the default `retain=True`). -/
def World.publish (w : World) (topic value : String) : World :=
  { w with
    state_cache := (publish_if_changed w.state_cache topic value true).1
    submitted := w.submitted ++ [(topic, value)]
    delivered := w.delivered ++ (publish_if_changed w.state_cache topic value true).2 }

/-- `Doorbell.publish_availability` (doorbell.py lines 112-121): submit the
availability payload for every entity in `_discovery_list` (lock first,
then ring, line 70-73), and on `available=False` set the
`_reseted_availability` flag. -/
def publish_availability (w : World) (available : Bool) : World :=
  let payload := if available then "online" else "offline"
  let w1 := (w.publish lockAvailabilityTopic payload).publish
    ringAvailabilityTopic payload
  if available then w1 else { w1 with reseted_availability := true }

/-- The body of the `async for attempt in self._get_device_info(...)` loop
in `Doorbell.handle_device_infos` (doorbell.py lines 240-252), for a single
yielded attempt. On `None`: mark unhealthy and publish offline
availability. On a value: publish online availability; if the
`_reseted_availability` flag is set, submit the lock state
`DoorInfo.closed.to_mqtt_lock_discovery_state()` and clear the flag; store
the device info. The healthy flag is not written in the value branch. -/
def handle_device_info_attempt (w : World) (attempt : Option DeviceInfo) : World :=
  match attempt with
  | none => publish_availability { w with device_healthy := false } false
  | some info =>
      let w1 := publish_availability w true
      if w1.reseted_availability then
        let w2 := w1.publish lockStateTopic
          DoorInfo.closed.to_mqtt_lock_discovery_state.value
        { w2 with reseted_availability := false, device_info := some info }
      else
        { w1 with device_info := some info }

/-- The body of the `async for attempt in self._get_call_status(...)` loop
in `Doorbell.handle_call_statuses` (doorbell.py lines 263-277), for a
single yielded attempt. -/
def handle_call_status_attempt (w : World) (attempt : Option CallInfo) : World :=
  match attempt with
  | none => w.publish ringStateTopic CallButtonStates.unknown.value
  | some info =>
      if info = CallInfo.ring then
        (w.publish ringStateTopic CallButtonStates.pressed.value).publish
          ringStateTopic CallButtonStates.released.value
      else
        w.publish ringStateTopic info.to_mqtt_event_discovery_event_type

/-- The `async for` consumption loop of `Doorbell.open_close_doors`
(doorbell.py lines 216-224) over the yields and terminal behaviour of the
retry generator. Each `None` yield sets `_device_healthy = False`; the
first value yield sets it `True` and is returned; when the yields are
exhausted, a `failure` terminal re-raises the stored exception into the
caller (modelled as `Except.error`), otherwise `DoorInfo.jammed` is
returned. The result pairs the returned door state with the final
`_device_healthy` value. -/
def open_close_doors_loop (healthy : Bool) :
    List (Option DoorInfo) → RetryTerminal HttpxError →
      Except HttpxError (DoorInfo × Bool)
  | [], .failure e => Except.error e
  | [], .success => Except.ok (DoorInfo.jammed, healthy)
  | [], .quiet => Except.ok (DoorInfo.jammed, healthy)
  | none :: rest, t => open_close_doors_loop false rest t
  | some v :: _, _ => Except.ok (v, true)

/-- `Doorbell.open_close_doors` applied to the trace of its retry
generator. -/
def open_close_doors_run (healthy : Bool) (tr : RetryTrace HttpxError DoorInfo) :
    Except HttpxError (DoorInfo × Bool) :=
  open_close_doors_loop healthy tr.yields tr.terminal

/-- Folding `handle_device_info_attempt` over all yields of one device-info
retry generator, as the `async for` in `Doorbell.handle_device_infos`
does. -/
def device_attempts_run (w : World) (ys : List (Option DeviceInfo)) : World :=
  ys.foldl handle_device_info_attempt w

/-- One full cycle of the `async for` in `Doorbell.handle_device_infos`
(doorbell.py lines 240-252): all yields are consumed in order, and then a
`failure` terminal re-raises the stored exception out of the loop — there
is no try/except around it, so the exception escapes the task (modelled as
`Except.error`). -/
def device_infos_cycle (w : World) (tr : RetryTrace HttpxError DeviceInfo) :
    Except HttpxError World :=
  match tr.terminal with
  | .failure e => Except.error e
  | _ => Except.ok (device_attempts_run w tr.yields)

/-- The first action a device-dependent code path takes with respect to the
connection handle `self._client`: either it sleeps and re-checks
(poll-wait) without issuing a request, or it issues a device request using
the handle value it read (possibly `None`). -/
inductive ClientStep where
  | waitForClient
  | request (client : Option Nat)
  deriving DecidableEq, Repr

/-- The guard at the top of the `Doorbell.handle_device_infos` loop body
(doorbell.py lines 235-238): when `self._client` is unset, sleep 0.1s and
continue; otherwise issue the device-info request with the handle. -/
def handle_device_infos_guard (client : Option Nat) : ClientStep :=
  match client with
  | none => ClientStep.waitForClient
  | some c => ClientStep.request (some c)

/-- The guard at the top of the `Doorbell.handle_call_statuses` loop body
(doorbell.py lines 258-261). -/
def handle_call_statuses_guard (client : Option Nat) : ClientStep :=
  match client with
  | none => ClientStep.waitForClient
  | some c => ClientStep.request (some c)

/-- `Doorbell.open_close_doors` (doorbell.py lines 216-224) passes
`self._client` straight into the door-control request with no check and no
wait, whatever its value. -/
def open_close_doors_guard (client : Option Nat) : ClientStep :=
  ClientStep.request client

/-- One cycle of the command loop in `Doorbell.handle_lock_command`
(doorbell.py lines 134-152), given the door state each door-control call
resolves to (`openRes` for the open request, `closeRes` for the close
request) and the `DEVICE_AUTOLOCKING` setting. Returns the updated world
and the number of door-control invocations made in the cycle. -/
def handle_lock_command_cycle (autolocking : Bool) (openRes closeRes : DoorInfo)
    (w : World) : World × Nat :=
  if openRes ≠ DoorInfo.opened then
    (w.publish lockStateTopic MqttLockDiscoveryState.jammed.value, 1)
  else
    let w1 := w.publish lockStateTopic MqttLockDiscoveryState.unlocked.value
    if ¬autolocking ∧ closeRes ≠ DoorInfo.closed then
      (w1.publish lockStateTopic MqttLockDiscoveryState.jammed.value, 2)
    else
      (w1.publish lockStateTopic MqttLockDiscoveryState.locked.value, 2)

/-- A queued `MqttMessage` (models/mqtt.py lines 43-48), as produced by
`MqttDiscovery.get_mqtt_message`. -/
structure MqttMessage where
  state_topic : Option String
  payload : String
  availability_topic : String
  availability_payload : String
  deriving DecidableEq, Repr

/-- The config topic of the bridge's event discovery
(`discovery_prefix/type/unique_id/config`, models/mqtt.py lines 61-67;
note `MqttEventDiscovery.type` defaults to `lock`). -/
def eventConfigTopic : String := "homeassistant/lock/doorbell_state_sensor/config"

/-- The config topic of the bridge's lock discovery. -/
def lockConfigTopic : String := "homeassistant/lock/doorbell_state_lock/config"

/-- The serialized event discovery descriptor
(`model_dump_json(exclude_none=True)`), abstracted as an opaque payload
string: the claims only count descriptor publishes. -/
def eventDiscoveryPayload : String := "<event discovery config json>"

/-- The serialized lock discovery descriptor, abstracted likewise. -/
def lockDiscoveryPayload : String := "<lock discovery config json>"

/-- The `MqttMessage` built by
`self._lock_discovery.get_mqtt_message(MqttLockDiscoveryState.locked)`
(mqtt_bridge.py line 69). -/
def lockedMessage : MqttMessage :=
  ⟨some lockStateTopic, MqttLockDiscoveryState.locked.value,
    lockAvailabilityTopic, "online"⟩

/-- The state of `MQTTBridge` relevant to startup publication: the
`discovery_sent_once` latch, the dedup cache, and the lock event queue. -/
structure BridgeState where
  discovery_sent_once : Bool
  state_cache : Cache
  lock_event_queue : List MqttMessage
  deriving DecidableEq, Repr

/-- `MQTTBridge.publish_discovery_once` (mqtt_bridge.py lines 63-71): if
the latch is set, do nothing; otherwise publish both discovery descriptors
(retained, qos 1), enqueue the `locked` lock message, submit the initial
lock state `LOCKED` through `_publish_if_changed`, and set the latch.
Returns the new state and the publishes forwarded to the transport. -/
def publish_discovery_once (s : BridgeState) : BridgeState × List PublishEvent :=
  if s.discovery_sent_once then
    (s, [])
  else
    let d1 : PublishEvent := ⟨eventConfigTopic, eventDiscoveryPayload, 1, true⟩
    let d2 : PublishEvent := ⟨lockConfigTopic, lockDiscoveryPayload, 1, true⟩
    let pub := publish_if_changed s.state_cache lockStateTopic
      MqttLockDiscoveryState.locked.value true
    (⟨true, pub.1, s.lock_event_queue ++ [lockedMessage]⟩, d1 :: d2 :: pub.2)

/-- Looking up the key just stored finds the stored value. -/
theorem cacheGet_cacheSet_self (c : Cache) (t v : String) :
    cacheGet (cacheSet c t v) t = some v := by
  induction c with
  | nil => simp [cacheSet, cacheGet]
  | cons kv rest ih =>
      obtain ⟨k, x⟩ := kv
      by_cases h : k = t
      · simp [cacheSet, cacheGet, h]
      · simp [cacheSet, cacheGet, h, ih]

/-- Storing one key leaves the other keys' lookups unchanged. -/
theorem cacheGet_cacheSet_ne (c : Cache) (t t' v : String) (h : t ≠ t') :
    cacheGet (cacheSet c t v) t' = cacheGet c t' := by
  induction c with
  | nil => simp [cacheSet, cacheGet, h]
  | cons kv rest ih =>
      obtain ⟨k, x⟩ := kv
      by_cases hk : k = t
      · subst hk
        simp [cacheSet, cacheGet, h]
      · simp [cacheSet, cacheGet, hk, ih]

/-- When the cached value differs, `publish_if_changed` stores and forwards
exactly one publish. -/
theorem publish_if_changed_of_ne (c : Cache) (t v : String) (rt : Bool)
    (h : cacheGet c t ≠ some v) :
    publish_if_changed c t v rt = (cacheSet c t v, [⟨t, v, 1, rt⟩]) := by
  simp [publish_if_changed, h]

/-- When the cached value matches, `publish_if_changed` is a no-op. -/
theorem publish_if_changed_of_eq (c : Cache) (t v : String) (rt : Bool)
    (h : cacheGet c t = some v) :
    publish_if_changed c t v rt = (c, []) := by
  simp [publish_if_changed, h]

/-- Every publish forwarded by one `publish_if_changed` call carries that
call's topic, so counting any other topic over its output gives zero. -/
theorem countPub_publish_if_changed_ne (c : Cache) (t v : String) (rt : Bool)
    (t' p : String) (h : t' ≠ t) :
    countPub (publish_if_changed c t v rt).2 t' p = 0 := by
  by_cases hc : cacheGet c t = some v
  · simp [publish_if_changed_of_eq c t v rt hc, countPub]
  · simp only [publish_if_changed_of_ne c t v rt hc, countPub]
    simp only [List.countP_cons, List.countP_nil]
    have : ((⟨t, v, 1, rt⟩ : PublishEvent).topic == t' &&
        (⟨t, v, 1, rt⟩ : PublishEvent).payload == p) = false := by
      simp
      intro ht
      exact absurd ht.symm h
    simp [this]

/-- Whether one attempt outcome is a non-None return. -/
def AttemptOutcome.isSuccess : AttemptOutcome ε α → Bool
  | .returns (some _) => true
  | _ => false

/-- One-step unfolding of the attempt loop when every attempt raises. -/
theorem retryGo_raise_step {α : Type} (e : Nat → HttpxError) (a r : Nat)
    (lx : Option HttpxError) :
    retryGo (fun i => (AttemptOutcome.raises (e i) : AttemptOutcome HttpxError α))
        a (r + 1) lx
      = ⟨none :: (retryGo (fun i => (AttemptOutcome.raises (e i) :
            AttemptOutcome HttpxError α)) (a + 1) r (some (e a))).yields,
          (retryGo (fun i => (AttemptOutcome.raises (e i) :
            AttemptOutcome HttpxError α)) (a + 1) r (some (e a))).terminal,
          (retryGo (fun i => (AttemptOutcome.raises (e i) :
            AttemptOutcome HttpxError α)) (a + 1) r (some (e a))).calls + 1⟩ :=
  rfl

/-- If every attempt raises, the loop yields `None` once per attempt and
then raises the exception caught on the final attempt. -/
theorem retryGo_all_raise {α : Type} (e : Nat → HttpxError) :
    ∀ (r a : Nat) (lx : Option HttpxError),
      retryGo (fun i => (AttemptOutcome.raises (e i) : AttemptOutcome HttpxError α))
          a (r + 1) lx
        = ⟨List.replicate (r + 1) none, RetryTerminal.failure (e (a + r)), r + 1⟩ := by
  intro r
  induction r with
  | zero =>
      intro a lx
      rfl
  | succ n ih =>
      intro a lx
      have hrec := ih (a + 1) (some (e a))
      have hidx : a + 1 + n = a + (n + 1) := by omega
      rw [hidx] at hrec
      rw [retryGo_raise_step, hrec]
      simp [List.replicate_succ]

/-- One-step unfolding of the attempt loop when every attempt returns
`None`. -/
theorem retryGo_none_step {α : Type} (a r : Nat) (lx : Option HttpxError) :
    retryGo (fun _ => (AttemptOutcome.returns none : AttemptOutcome HttpxError α))
        a (r + 1) lx
      = ⟨none :: (retryGo (fun _ => (AttemptOutcome.returns none :
            AttemptOutcome HttpxError α)) (a + 1) r lx).yields,
          (retryGo (fun _ => (AttemptOutcome.returns none :
            AttemptOutcome HttpxError α)) (a + 1) r lx).terminal,
          (retryGo (fun _ => (AttemptOutcome.returns none :
            AttemptOutcome HttpxError α)) (a + 1) r lx).calls + 1⟩ :=
  rfl

/-- If every attempt returns `None` without raising, the loop yields `None`
once per attempt; the terminal behaviour is decided by the incoming
`last_exception` (quiet stop when it is empty). -/
theorem retryGo_all_none {α : Type} :
    ∀ (r a : Nat) (lx : Option HttpxError),
      retryGo (fun _ => (AttemptOutcome.returns none : AttemptOutcome HttpxError α))
          a r lx
        = ⟨List.replicate r none,
            (match lx with
              | some e2 => RetryTerminal.failure e2
              | none => RetryTerminal.quiet), r⟩ := by
  intro r
  induction r with
  | zero =>
      intro a lx
      cases lx <;> rfl
  | succ n ih =>
      intro a lx
      rw [retryGo_none_step, ih (a + 1) lx]
      cases lx <;> simp [List.replicate_succ]

/-- If attempt `a + j` is the first success counting from attempt `a`, the
loop yields `j` markers, then the value, stops normally, and makes exactly
`j + 1` calls. -/
theorem retryGo_first_success {α : Type}
    (op : Nat → AttemptOutcome HttpxError α) (v : α) :
    ∀ (j a r : Nat) (lx : Option HttpxError), j < r →
      (∀ i, i < j → (op (a + i)).isSuccess = false) →
      op (a + j) = AttemptOutcome.returns (some v) →
      retryGo op a r lx
        = ⟨List.replicate j none ++ [some v], RetryTerminal.success, j + 1⟩ := by
  intro j
  induction j with
  | zero =>
      intro a r lx hr _ hop
      obtain ⟨r2, rfl⟩ : ∃ r2, r = r2 + 1 := ⟨r - 1, by omega⟩
      rw [Nat.add_zero] at hop
      simp [retryGo, hop]
  | succ n ih =>
      intro a r lx hr hbefore hop
      obtain ⟨r2, rfl⟩ : ∃ r2, r = r2 + 1 := ⟨r - 1, by omega⟩
      have h0 : (op a).isSuccess = false := by
        have := hbefore 0 (by omega)
        rwa [Nat.add_zero] at this
      have hbefore2 : ∀ i, i < n → (op (a + 1 + i)).isSuccess = false := by
        intro i hi
        have := hbefore (i + 1) (by omega)
        rwa [show a + (i + 1) = a + 1 + i by omega] at this
      have hop2 : op (a + 1 + n) = AttemptOutcome.returns (some v) := by
        rwa [show a + (n + 1) = a + 1 + n by omega] at hop
      cases hcur : op a with
      | raises e2 =>
          have hrec := ih (a + 1) r2 (some e2) (by omega) hbefore2 hop2
          simp [retryGo, hcur, hrec, List.replicate_succ]
      | returns val =>
          cases val with
          | none =>
              have hrec := ih (a + 1) r2 lx (by omega) hbefore2 hop2
              simp [retryGo, hcur, hrec, List.replicate_succ]
          | some w =>
              rw [hcur] at h0
              simp [AttemptOutcome.isSuccess] at h0

/-- C1 (amended). `retry_async_yield` with `attempts = N` (N ≥ 1) applied
to an operation raising a classified-as-transient error on every attempt:
iterating the generator yields exactly N "no-value" markers — one per
attempt, not N-1 — and then signals failure to the caller by raising the
exception caught on the last attempt. -/
theorem retry_transient_exhaustion {α : Type} (N : Nat) (hN : 0 < N)
    (e : Nat → HttpxError) :
    (retry_async_yield N
        (fun i => (AttemptOutcome.raises (e i) : AttemptOutcome HttpxError α))).yields
      = List.replicate N none ∧
    (retry_async_yield N
        (fun i => (AttemptOutcome.raises (e i) : AttemptOutcome HttpxError α))).terminal
      = RetryTerminal.failure (e N) ∧
    (retry_async_yield N
        (fun i => (AttemptOutcome.raises (e i) : AttemptOutcome HttpxError α))).calls
      = N := by
  obtain ⟨m, rfl⟩ : ∃ m, N = m + 1 := ⟨N - 1, by omega⟩
  have h := retryGo_all_raise (α := α) e m 1 none
  rw [show 1 + m = m + 1 by omega] at h
  rw [retry_async_yield, h]
  exact ⟨rfl, rfl, rfl⟩

/-- Witness for `retry_transient_exhaustion` at N = 2. -/
theorem retry_transient_exhaustion_witness :
    (retry_async_yield 2
        (fun _ => (AttemptOutcome.raises HttpxError.readTimeout :
          AttemptOutcome HttpxError Unit))).yields
      = List.replicate 2 none ∧
    (retry_async_yield 2
        (fun _ => (AttemptOutcome.raises HttpxError.readTimeout :
          AttemptOutcome HttpxError Unit))).terminal
      = RetryTerminal.failure HttpxError.readTimeout ∧
    (retry_async_yield 2
        (fun _ => (AttemptOutcome.raises HttpxError.readTimeout :
          AttemptOutcome HttpxError Unit))).calls
      = 2 :=
  retry_transient_exhaustion 2 (by decide) (fun _ => HttpxError.readTimeout)

/-- C1 counterexample. With attempts = 2 and an always-raising operation,
the generator yields 2 "no-value" markers, not 2 - 1 = 1 as the claim
states. -/
theorem retry_transient_markers_counterexample :
    (retry_async_yield 2
        (fun _ => (AttemptOutcome.raises HttpxError.readTimeout :
          AttemptOutcome HttpxError Unit))).yields
        ≠ List.replicate (2 - 1) none ∧
    (retry_async_yield 2
        (fun _ => (AttemptOutcome.raises HttpxError.readTimeout :
          AttemptOutcome HttpxError Unit))).yields.length = 2 := by
  decide

/-- C6. `retry_async_yield` with `attempts = N` applied to an operation
whose first non-empty return is on attempt k (1 ≤ k ≤ N): the generator
yields exactly k-1 "no-value" markers followed by the value, stops
normally, and the wrapped operation is invoked exactly k times — no
further attempts after the success. -/
theorem retry_first_value_at_k {α : Type} (N k : Nat)
    (op : Nat → AttemptOutcome HttpxError α) (v : α)
    (hk1 : 1 ≤ k) (hkN : k ≤ N)
    (hbefore : ∀ i, 1 ≤ i → i < k → (op i).isSuccess = false)
    (hk : op k = AttemptOutcome.returns (some v)) :
    (retry_async_yield N op).yields = List.replicate (k - 1) none ++ [some v] ∧
    (retry_async_yield N op).terminal = RetryTerminal.success ∧
    (retry_async_yield N op).calls = k := by
  have hbefore2 : ∀ i, i < k - 1 → (op (1 + i)).isSuccess = false := by
    intro i hi
    exact hbefore (1 + i) (by omega) (by omega)
  have hsucc : op (1 + (k - 1)) = AttemptOutcome.returns (some v) := by
    rw [show 1 + (k - 1) = k by omega]
    exact hk
  have h := retryGo_first_success op v (k - 1) 1 N none (by omega) hbefore2 hsucc
  rw [retry_async_yield, h]
  refine ⟨rfl, rfl, ?_⟩
  show k - 1 + 1 = k
  omega

/-- Witness for `retry_first_value_at_k`: N = 3, success on attempt 2. -/
theorem retry_first_value_at_k_witness :
    (retry_async_yield 3 (fun i =>
        if i = 2 then AttemptOutcome.returns (some DoorInfo.opened)
        else (AttemptOutcome.returns none : AttemptOutcome HttpxError DoorInfo))).yields
      = List.replicate (2 - 1) none ++ [some DoorInfo.opened] ∧
    (retry_async_yield 3 (fun i =>
        if i = 2 then AttemptOutcome.returns (some DoorInfo.opened)
        else (AttemptOutcome.returns none : AttemptOutcome HttpxError DoorInfo))).terminal
      = RetryTerminal.success ∧
    (retry_async_yield 3 (fun i =>
        if i = 2 then AttemptOutcome.returns (some DoorInfo.opened)
        else (AttemptOutcome.returns none : AttemptOutcome HttpxError DoorInfo))).calls
      = 2 :=
  retry_first_value_at_k 3 2 _ DoorInfo.opened (by decide) (by decide)
    (fun i h1 h2 => by
      have : i = 1 := by omega
      subst this
      decide)
    (by decide)

/-- Consuming only `None` yields leaves a pending `failure` terminal to
re-raise once the yields run out. -/
theorem open_close_loop_none_failure :
    ∀ (n : Nat) (h : Bool) (e : HttpxError),
      open_close_doors_loop h (List.replicate n none) (RetryTerminal.failure e)
        = Except.error e := by
  intro n
  induction n with
  | zero => intro h e; rfl
  | succ m ih =>
      intro h e
      rw [List.replicate_succ]
      exact ih false e

/-- Consuming at least one `None` yield and then stopping quietly returns
`jammed` with the healthy flag cleared. -/
theorem open_close_loop_none_quiet :
    ∀ (n : Nat) (h : Bool),
      open_close_doors_loop h (List.replicate (n + 1) none) RetryTerminal.quiet
        = Except.ok (DoorInfo.jammed, false) := by
  intro n
  induction n with
  | zero => intro h; rfl
  | succ m ih =>
      intro h
      rw [List.replicate_succ]
      exact ih false

/-- C2 (amended). When a retry sequence exhausts all N attempts: if at
least one attempt raised a transient error, the stored exception is
re-raised into the caller — both `open_close_doors` and the device-info
poller body propagate it (there is no try/except), so the calling task
does not survive; only when every attempt returned empty without raising
does the caller map exhaustion to the jammed / device-unhealthy outcome
and continue. -/
theorem exhaustion_caller_outcomes (N : Nat) (hN : 0 < N)
    (e : Nat → HttpxError) (h0 : Bool) (w : World) :
    open_close_doors_run h0
        (retry_async_yield N (fun i => AttemptOutcome.raises (e i)))
      = Except.error (e N) ∧
    open_close_doors_run h0
        (retry_async_yield N (fun _ => AttemptOutcome.returns none))
      = Except.ok (DoorInfo.jammed, false) ∧
    device_infos_cycle w
        (retry_async_yield N (fun i => AttemptOutcome.raises (e i)))
      = Except.error (e N) ∧
    device_infos_cycle w
        (retry_async_yield N (fun _ => AttemptOutcome.returns none))
      = Except.ok (device_attempts_run w (List.replicate N none)) := by
  obtain ⟨m, rfl⟩ : ∃ m, N = m + 1 := ⟨N - 1, by omega⟩
  have hraiseD := retryGo_all_raise (α := DeviceInfo) e m 1 none
  have hraiseL := retryGo_all_raise (α := DoorInfo) e m 1 none
  rw [show 1 + m = m + 1 by omega] at hraiseD hraiseL
  have hnoneD := retryGo_all_none (α := DeviceInfo) (m + 1) 1 none
  have hnoneL := retryGo_all_none (α := DoorInfo) (m + 1) 1 none
  refine ⟨?_, ?_, ?_, ?_⟩
  · rw [open_close_doors_run, retry_async_yield, hraiseL]
    exact open_close_loop_none_failure (m + 1) h0 (e (m + 1))
  · rw [open_close_doors_run, retry_async_yield, hnoneL]
    exact open_close_loop_none_quiet m h0
  · rw [device_infos_cycle, retry_async_yield, hraiseD]
  · rw [device_infos_cycle, retry_async_yield, hnoneD]

/-- Witness for `exhaustion_caller_outcomes` at N = 2 and an empty initial
worker state. -/
theorem exhaustion_caller_outcomes_witness :
    open_close_doors_run true
        (retry_async_yield 2 (fun _ => AttemptOutcome.raises HttpxError.connectError))
      = Except.error HttpxError.connectError ∧
    open_close_doors_run true
        (retry_async_yield 2 (fun _ => AttemptOutcome.returns none))
      = Except.ok (DoorInfo.jammed, false) ∧
    device_infos_cycle ⟨true, true, none, [], [], []⟩
        (retry_async_yield 2 (fun _ => AttemptOutcome.raises HttpxError.connectError))
      = Except.error HttpxError.connectError ∧
    device_infos_cycle ⟨true, true, none, [], [], []⟩
        (retry_async_yield 2 (fun _ => AttemptOutcome.returns none))
      = Except.ok (device_attempts_run ⟨true, true, none, [], [], []⟩
          (List.replicate 2 none)) :=
  exhaustion_caller_outcomes 2 (by decide) (fun _ => HttpxError.connectError)
    true ⟨true, true, none, [], [], []⟩

/-- C2 counterexample. With 2 attempts that both raise a transient error,
`open_close_doors` does not return the jammed outcome: the exception
escapes into the calling task instead. -/
theorem exhaustion_crash_counterexample :
    open_close_doors_run true
        (retry_async_yield 2 (fun _ => AttemptOutcome.raises HttpxError.readTimeout))
      = Except.error HttpxError.readTimeout ∧
    (open_close_doors_run true
        (retry_async_yield 2 (fun _ => AttemptOutcome.raises HttpxError.readTimeout))
      ≠ Except.ok (DoorInfo.jammed, false)) ∧
    (open_close_doors_run true
        (retry_async_yield 2 (fun _ => AttemptOutcome.raises HttpxError.readTimeout))
      ≠ Except.ok (DoorInfo.jammed, true)) :=
  ⟨rfl, fun h => Except.noConfusion h, fun h => Except.noConfusion h⟩

/-- C3. For each inbound lock command, the lock-state values handed to the
dedup publish layer in that cycle are exactly [unlocked, locked] when the
door-open resolves to `opened` and (when auto-locking is disabled) the
door-close resolves to `closed`; exactly [jammed] when the door-open does
not resolve to `opened`, with no second door-control call; and exactly
[unlocked, jammed] when the door-open succeeds but, with auto-locking
disabled, the door-close does not resolve to `closed`. -/
theorem lock_cycle_submission_order (auto : Bool) (openRes closeRes : DoorInfo)
    (w : World) (hw : w.submitted = []) :
    (openRes = DoorInfo.opened → (auto = false → closeRes = DoorInfo.closed) →
      (handle_lock_command_cycle auto openRes closeRes w).1.submitted
        = [(lockStateTopic, "UNLOCKED"), (lockStateTopic, "LOCKED")]) ∧
    (openRes ≠ DoorInfo.opened →
      (handle_lock_command_cycle auto openRes closeRes w).1.submitted
        = [(lockStateTopic, "JAMMED")] ∧
      (handle_lock_command_cycle auto openRes closeRes w).2 = 1) ∧
    (openRes = DoorInfo.opened → auto = false → closeRes ≠ DoorInfo.closed →
      (handle_lock_command_cycle auto openRes closeRes w).1.submitted
        = [(lockStateTopic, "UNLOCKED"), (lockStateTopic, "JAMMED")]) := by
  refine ⟨?_, ?_, ?_⟩
  · intro hopen hclose
    subst hopen
    cases auto with
    | false =>
        have hc := hclose rfl
        subst hc
        simp [handle_lock_command_cycle, World.publish, hw,
          MqttLockDiscoveryState.value]
    | true =>
        simp [handle_lock_command_cycle, World.publish, hw,
          MqttLockDiscoveryState.value]
  · intro hopen
    simp [handle_lock_command_cycle, hopen, World.publish, hw,
      MqttLockDiscoveryState.value]
  · intro hopen hauto hclose
    subst hopen
    subst hauto
    simp [handle_lock_command_cycle, World.publish, hw, hclose,
      MqttLockDiscoveryState.value]

/-- Witness for `lock_cycle_submission_order`: auto-locking disabled,
door-open resolves `opened`, door-close resolves `closed`. -/
theorem lock_cycle_submission_order_witness :
    (handle_lock_command_cycle false DoorInfo.opened DoorInfo.closed
        ⟨true, false, none, [], [], []⟩).1.submitted
      = [(lockStateTopic, "UNLOCKED"), (lockStateTopic, "LOCKED")] :=
  (lock_cycle_submission_order false DoorInfo.opened DoorInfo.closed
      ⟨true, false, none, [], [], []⟩ rfl).1 rfl (fun _ => rfl)

/-- C4. For every topic and value: of two consecutive `publish_if_changed`
calls with equal values at most one forwards an underlying MQTT publish,
and the second is a no-op that leaves the cache unchanged; a call whose
value differs from the cached value for that topic always updates the
cache and forwards exactly one publish, retained with QoS 1. -/
theorem publish_if_changed_dedup (c : Cache) (t v : String) (rt : Bool) :
    (publish_if_changed (publish_if_changed c t v rt).1 t v rt
      = ((publish_if_changed c t v rt).1, [])) ∧
    ((publish_if_changed c t v rt).2.length
        + (publish_if_changed (publish_if_changed c t v rt).1 t v rt).2.length
      ≤ 1) ∧
    (cacheGet c t ≠ some v →
      publish_if_changed c t v true = (cacheSet c t v, [⟨t, v, 1, true⟩])) := by
  by_cases hc : cacheGet c t = some v
  · rw [publish_if_changed_of_eq c t v rt hc]
    refine ⟨publish_if_changed_of_eq c t v rt hc, ?_, ?_⟩
    · rw [publish_if_changed_of_eq c t v rt hc]
      simp
    · intro h
      exact absurd hc h
  · rw [publish_if_changed_of_ne c t v rt hc]
    have h2 : cacheGet (cacheSet c t v) t = some v := cacheGet_cacheSet_self c t v
    refine ⟨publish_if_changed_of_eq _ t v rt h2, ?_, ?_⟩
    · rw [publish_if_changed_of_eq _ t v rt h2]
      simp
    · intro _
      exact publish_if_changed_of_ne c t v true hc

/-- Witness for `publish_if_changed_dedup`: empty cache, a fresh value is
stored and forwarded exactly once, retained with QoS 1. -/
theorem publish_if_changed_dedup_witness :
    cacheGet [] "a" ≠ some "b" ∧
    publish_if_changed [] "a" "b" true
      = (cacheSet [] "a" "b", [⟨"a", "b", 1, true⟩]) :=
  ⟨by decide, (publish_if_changed_dedup [] "a" "b" true).2.2 (by decide)⟩

/-- C5 (amended). The device-info and call-status pollers poll-wait (sleep
and re-check) while no connection handle exists and only issue their
request once a handle is present; the door-control path, by contrast,
issues its request with whatever `self._client` holds, without any wait,
even when no handle exists. -/
theorem client_guard_discipline (c : Nat) (cl : Option Nat) :
    handle_device_infos_guard none = ClientStep.waitForClient ∧
    handle_call_statuses_guard none = ClientStep.waitForClient ∧
    handle_device_infos_guard (some c) = ClientStep.request (some c) ∧
    handle_call_statuses_guard (some c) = ClientStep.request (some c) ∧
    open_close_doors_guard cl = ClientStep.request cl :=
  ⟨rfl, rfl, rfl, rfl, rfl⟩

/-- C5 counterexample. The door-control path issues a device request while
no connection handle exists, instead of poll-waiting. -/
theorem door_control_no_wait_counterexample :
    open_close_doors_guard none = ClientStep.request none ∧
    ClientStep.request none ≠ ClientStep.waitForClient :=
  ⟨rfl, fun h => ClientStep.noConfusion h⟩

/-- A publish on one topic leaves the cached value of any other topic
unchanged. -/
theorem cacheGet_publish_if_changed_ne (c : Cache) (t v : String) (rt : Bool)
    (t2 : String) (h : t ≠ t2) :
    cacheGet (publish_if_changed c t v rt).1 t2 = cacheGet c t2 := by
  by_cases hc : cacheGet c t = some v
  · rw [publish_if_changed_of_eq c t v rt hc]
  · rw [publish_if_changed_of_ne c t v rt hc]
    exact cacheGet_cacheSet_ne c t t2 v h

/-- `publish_availability(False)` from a state whose cached availability is
`online` on both entity topics: both offline publishes reach the transport
and the resync flag is set. -/
theorem publish_availability_false_online (w : World)
    (hl : cacheGet w.state_cache lockAvailabilityTopic = some "online")
    (hr : cacheGet w.state_cache ringAvailabilityTopic = some "online") :
    publish_availability w false =
      { w with
        reseted_availability := true
        state_cache := cacheSet (cacheSet w.state_cache lockAvailabilityTopic
          "offline") ringAvailabilityTopic "offline"
        submitted := w.submitted ++
          [(lockAvailabilityTopic, "offline"), (ringAvailabilityTopic, "offline")]
        delivered := w.delivered ++
          [⟨lockAvailabilityTopic, "offline", 1, true⟩,
            ⟨ringAvailabilityTopic, "offline", 1, true⟩] } := by
  have h1 : cacheGet w.state_cache lockAvailabilityTopic ≠ some "offline" := by
    rw [hl]
    decide
  have h2 : cacheGet (cacheSet w.state_cache lockAvailabilityTopic "offline")
      ringAvailabilityTopic ≠ some "offline" := by
    rw [cacheGet_cacheSet_ne _ _ _ _ (by decide), hr]
    decide
  simp [publish_availability, World.publish,
    publish_if_changed_of_ne _ _ _ _ h1, publish_if_changed_of_ne _ _ _ _ h2]

/-- `publish_availability(False)` from a state whose cached availability is
already `offline` on both entity topics: nothing reaches the transport; the
offline values are still submitted to the dedup layer and the resync flag
is (re)set. -/
theorem publish_availability_false_offline (w : World)
    (hl : cacheGet w.state_cache lockAvailabilityTopic = some "offline")
    (hr : cacheGet w.state_cache ringAvailabilityTopic = some "offline") :
    publish_availability w false =
      { w with
        reseted_availability := true
        submitted := w.submitted ++
          [(lockAvailabilityTopic, "offline"), (ringAvailabilityTopic, "offline")] } := by
  simp [publish_availability, World.publish,
    publish_if_changed_of_eq _ _ _ _ hl, publish_if_changed_of_eq _ _ _ _ hr]

/-- C9. After three consecutive failed device-info polls starting from a
state whose cached availability is `online` on both discovery entities'
availability topics, the payload `offline` is forwarded to the MQTT
transport exactly once per availability topic — not three times — and both
entities' availability topics receive it. -/
theorem offline_published_once (hB r : Bool) (di : Option DeviceInfo) (c0 : Cache)
    (hl : cacheGet c0 lockAvailabilityTopic = some "online")
    (hr2 : cacheGet c0 ringAvailabilityTopic = some "online") :
    countPub (device_attempts_run ⟨hB, r, di, c0, [], []⟩
        (List.replicate 3 none)).delivered lockAvailabilityTopic "offline" = 1 ∧
    countPub (device_attempts_run ⟨hB, r, di, c0, [], []⟩
        (List.replicate 3 none)).delivered ringAvailabilityTopic "offline" = 1 := by
  have s1 : handle_device_info_attempt (⟨hB, r, di, c0, [], []⟩ : World) none
      = ⟨false, true, di,
          cacheSet (cacheSet c0 lockAvailabilityTopic "offline")
            ringAvailabilityTopic "offline",
          [(lockAvailabilityTopic, "offline"), (ringAvailabilityTopic, "offline")],
          [⟨lockAvailabilityTopic, "offline", 1, true⟩,
            ⟨ringAvailabilityTopic, "offline", 1, true⟩]⟩ := by
    have := publish_availability_false_online ⟨false, r, di, c0, [], []⟩ hl hr2
    simpa [handle_device_info_attempt] using this
  have hcl : cacheGet (cacheSet (cacheSet c0 lockAvailabilityTopic "offline")
      ringAvailabilityTopic "offline") lockAvailabilityTopic = some "offline" := by
    rw [cacheGet_cacheSet_ne _ _ _ _ (by decide)]
    exact cacheGet_cacheSet_self c0 lockAvailabilityTopic "offline"
  have hcr : cacheGet (cacheSet (cacheSet c0 lockAvailabilityTopic "offline")
      ringAvailabilityTopic "offline") ringAvailabilityTopic = some "offline" :=
    cacheGet_cacheSet_self _ ringAvailabilityTopic "offline"
  have s2 : ∀ sub : List (String × String),
      handle_device_info_attempt
          (⟨false, true, di,
            cacheSet (cacheSet c0 lockAvailabilityTopic "offline")
              ringAvailabilityTopic "offline",
            sub,
            [⟨lockAvailabilityTopic, "offline", 1, true⟩,
              ⟨ringAvailabilityTopic, "offline", 1, true⟩]⟩ : World) none
        = ⟨false, true, di,
            cacheSet (cacheSet c0 lockAvailabilityTopic "offline")
              ringAvailabilityTopic "offline",
            sub ++ [(lockAvailabilityTopic, "offline"),
              (ringAvailabilityTopic, "offline")],
            [⟨lockAvailabilityTopic, "offline", 1, true⟩,
              ⟨ringAvailabilityTopic, "offline", 1, true⟩]⟩ := by
    intro sub
    have := publish_availability_false_offline
      ⟨false, true, di,
        cacheSet (cacheSet c0 lockAvailabilityTopic "offline")
          ringAvailabilityTopic "offline",
        sub,
        [⟨lockAvailabilityTopic, "offline", 1, true⟩,
          ⟨ringAvailabilityTopic, "offline", 1, true⟩]⟩ hcl hcr
    simpa [handle_device_info_attempt] using this
  have hrun : device_attempts_run ⟨hB, r, di, c0, [], []⟩ (List.replicate 3 none)
      = handle_device_info_attempt (handle_device_info_attempt
          (handle_device_info_attempt ⟨hB, r, di, c0, [], []⟩ none) none) none := rfl
  rw [hrun, s1, s2, s2]
  constructor
  · show countPub [⟨lockAvailabilityTopic, "offline", 1, true⟩,
        ⟨ringAvailabilityTopic, "offline", 1, true⟩] lockAvailabilityTopic "offline" = 1
    decide
  · show countPub [⟨lockAvailabilityTopic, "offline", 1, true⟩,
        ⟨ringAvailabilityTopic, "offline", 1, true⟩] ringAvailabilityTopic "offline" = 1
    decide

/-- Witness for `offline_published_once`: canonical online-published
state. -/
theorem offline_published_once_witness :
    countPub (device_attempts_run
        ⟨true, false, none,
          [(lockAvailabilityTopic, "online"), (ringAvailabilityTopic, "online")],
          [], []⟩ (List.replicate 3 none)).delivered
        lockAvailabilityTopic "offline" = 1 ∧
    countPub (device_attempts_run
        ⟨true, false, none,
          [(lockAvailabilityTopic, "online"), (ringAvailabilityTopic, "online")],
          [], []⟩ (List.replicate 3 none)).delivered
        ringAvailabilityTopic "offline" = 1 :=
  offline_published_once true false none
    [(lockAvailabilityTopic, "online"), (ringAvailabilityTopic, "online")]
    (by decide) (by decide)

/-- `publish_availability(True)` leaves the health and resync flags and the
stored device info unchanged, submits `online` for both entities, and
neither touches the cached lock state nor delivers anything on the lock
state topic. -/
theorem publish_availability_true_facts (w : World) :
    (publish_availability w true).device_healthy = w.device_healthy ∧
    (publish_availability w true).reseted_availability = w.reseted_availability ∧
    (publish_availability w true).device_info = w.device_info ∧
    (publish_availability w true).submitted
      = w.submitted ++
          [(lockAvailabilityTopic, "online"), (ringAvailabilityTopic, "online")] ∧
    cacheGet (publish_availability w true).state_cache lockStateTopic
      = cacheGet w.state_cache lockStateTopic ∧
    countPub (publish_availability w true).delivered lockStateTopic "LOCKED"
      = countPub w.delivered lockStateTopic "LOCKED" := by
  refine ⟨?_, ?_, ?_, ?_, ?_, ?_⟩
  · simp [publish_availability, World.publish]
  · simp [publish_availability, World.publish]
  · simp [publish_availability, World.publish]
  · simp [publish_availability, World.publish]
  · simp only [publish_availability, World.publish, if_true]
    rw [cacheGet_publish_if_changed_ne _ _ _ _ _ (by decide),
      cacheGet_publish_if_changed_ne _ _ _ _ _ (by decide)]
  · have z1 := countPub_publish_if_changed_ne w.state_cache lockAvailabilityTopic
      "online" true lockStateTopic "LOCKED" (by decide)
    have z2 := countPub_publish_if_changed_ne
      (publish_if_changed w.state_cache lockAvailabilityTopic "online" true).1
      ringAvailabilityTopic "online" true lockStateTopic "LOCKED" (by decide)
    show countPub ((w.delivered ++
        (publish_if_changed w.state_cache lockAvailabilityTopic "online" true).2) ++
        (publish_if_changed
          (publish_if_changed w.state_cache lockAvailabilityTopic "online" true).1
          ringAvailabilityTopic "online" true).2) lockStateTopic "LOCKED"
      = countPub w.delivered lockStateTopic "LOCKED"
    unfold countPub at z1 z2 ⊢
    rw [List.append_assoc, List.countP_append, List.countP_append, z1, z2]
    omega

/-- C8 (amended). A device-info poll that yields a value leaves the
`_device_healthy` flag unchanged (the success branch never writes it —
only failures set it to `False`); it publishes `online` for every entity
through the dedup layer; when the resync flag was set it additionally
submits `closed`'s mapped discovery value `LOCKED` on the lock state topic
once and clears the flag — the transport sees that publish exactly once
when the cached lock state differs, and not at all when the cache already
holds `LOCKED`; when the flag was not set, only the `online` values are
submitted and no lock state is submitted. -/
theorem device_info_resync (w : World) (info : DeviceInfo)
    (hs : w.submitted = []) :
    (handle_device_info_attempt w (some info)).device_healthy
      = w.device_healthy ∧
    (w.reseted_availability = true →
      (handle_device_info_attempt w (some info)).submitted
        = [(lockAvailabilityTopic, "online"), (ringAvailabilityTopic, "online"),
            (lockStateTopic, "LOCKED")] ∧
      (handle_device_info_attempt w (some info)).reseted_availability = false ∧
      (cacheGet w.state_cache lockStateTopic ≠ some "LOCKED" →
        countPub (handle_device_info_attempt w (some info)).delivered
            lockStateTopic "LOCKED"
          = countPub w.delivered lockStateTopic "LOCKED" + 1) ∧
      (cacheGet w.state_cache lockStateTopic = some "LOCKED" →
        countPub (handle_device_info_attempt w (some info)).delivered
            lockStateTopic "LOCKED"
          = countPub w.delivered lockStateTopic "LOCKED")) ∧
    (w.reseted_availability = false →
      (handle_device_info_attempt w (some info)).submitted
        = [(lockAvailabilityTopic, "online"), (ringAvailabilityTopic, "online")] ∧
      (handle_device_info_attempt w (some info)).reseted_availability = false) := by
  obtain ⟨f1, f2, f3, f4, f5, f6⟩ := publish_availability_true_facts w
  have hunf : handle_device_info_attempt w (some info)
      = (if (publish_availability w true).reseted_availability then
          { World.publish (publish_availability w true) lockStateTopic
              DoorInfo.closed.to_mqtt_lock_discovery_state.value with
            reseted_availability := false, device_info := some info }
        else
          { publish_availability w true with device_info := some info }) := rfl
  have hv : DoorInfo.closed.to_mqtt_lock_discovery_state.value = "LOCKED" := rfl
  by_cases hfl : w.reseted_availability = true
  · have hcond : (publish_availability w true).reseted_availability = true :=
      f2.trans hfl
    have hunf2 : handle_device_info_attempt w (some info)
        = { World.publish (publish_availability w true) lockStateTopic
              DoorInfo.closed.to_mqtt_lock_discovery_state.value with
            reseted_availability := false, device_info := some info } := by
      rw [hunf, hcond]
      simp
    refine ⟨?_, ?_, ?_⟩
    · rw [hunf2]
      exact f1
    · intro _
      refine ⟨?_, ?_, ?_, ?_⟩
      · rw [hunf2]
        show (publish_availability w true).submitted
            ++ [(lockStateTopic, DoorInfo.closed.to_mqtt_lock_discovery_state.value)]
          = [(lockAvailabilityTopic, "online"), (ringAvailabilityTopic, "online"),
              (lockStateTopic, "LOCKED")]
        rw [hv, f4, hs]
        simp
      · rw [hunf2]
      · intro hne
        have hcl : cacheGet (publish_availability w true).state_cache
            lockStateTopic ≠ some "LOCKED" := by
          rw [f5]
          exact hne
        rw [hunf2]
        show countPub ((publish_availability w true).delivered ++
            (publish_if_changed (publish_availability w true).state_cache
              lockStateTopic DoorInfo.closed.to_mqtt_lock_discovery_state.value
              true).2) lockStateTopic "LOCKED"
          = countPub w.delivered lockStateTopic "LOCKED" + 1
        rw [hv, publish_if_changed_of_ne _ _ _ _ hcl]
        have hone : countPub [(⟨lockStateTopic, "LOCKED", 1, true⟩ : PublishEvent)]
            lockStateTopic "LOCKED" = 1 := by decide
        unfold countPub at hone f6 ⊢
        rw [List.countP_append, hone, f6]
      · intro heq
        have hcl : cacheGet (publish_availability w true).state_cache
            lockStateTopic = some "LOCKED" := by
          rw [f5]
          exact heq
        rw [hunf2]
        show countPub ((publish_availability w true).delivered ++
            (publish_if_changed (publish_availability w true).state_cache
              lockStateTopic DoorInfo.closed.to_mqtt_lock_discovery_state.value
              true).2) lockStateTopic "LOCKED"
          = countPub w.delivered lockStateTopic "LOCKED"
        rw [hv, publish_if_changed_of_eq _ _ _ _ hcl, List.append_nil]
        exact f6
    · intro hflase
      rw [hfl] at hflase
      exact absurd hflase (by decide)
  · have hfl2 : w.reseted_availability = false := by
      cases hww : w.reseted_availability
      · rfl
      · exact absurd hww hfl
    have hcond : (publish_availability w true).reseted_availability = false :=
      f2.trans hfl2
    have hunf3 : handle_device_info_attempt w (some info)
        = { publish_availability w true with device_info := some info } := by
      rw [hunf, hcond]
      simp
    refine ⟨?_, ?_, ?_⟩
    · rw [hunf3]
      exact f1
    · intro htrue
      rw [hfl2] at htrue
      exact absurd htrue (by decide)
    · intro _
      refine ⟨?_, ?_⟩
      · rw [hunf3]
        show (publish_availability w true).submitted
          = [(lockAvailabilityTopic, "online"), (ringAvailabilityTopic, "online")]
        rw [f4, hs]
        simp
      · rw [hunf3]
        exact hcond

/-- Witness for `device_info_resync`: resync flag set, empty cache. -/
theorem device_info_resync_witness :
    (handle_device_info_attempt ⟨true, true, none, [], [], []⟩
        (some ⟨"n", "i"⟩)).submitted
      = [(lockAvailabilityTopic, "online"), (ringAvailabilityTopic, "online"),
          (lockStateTopic, "LOCKED")] ∧
    (handle_device_info_attempt ⟨true, true, none, [], [], []⟩
        (some ⟨"n", "i"⟩)).reseted_availability = false ∧
    countPub (handle_device_info_attempt ⟨true, true, none, [], [], []⟩
        (some ⟨"n", "i"⟩)).delivered lockStateTopic "LOCKED"
      = countPub ([] : List PublishEvent) lockStateTopic "LOCKED" + 1 := by
  have h := (device_info_resync ⟨true, true, none, [], [], []⟩ ⟨"n", "i"⟩ rfl).2.1 rfl
  exact ⟨h.1, h.2.1, h.2.2.1 (by decide)⟩

/-- C8 counterexample. With the health flag `False`, the resync flag set
and the cached lock state already `LOCKED`, a device-info poll that yields
a value neither marks the device healthy (the flag stays `False`) nor
delivers any lock-state publish to the transport. -/
theorem device_info_healthy_flag_counterexample :
    (handle_device_info_attempt
        ⟨false, true, none,
          [(lockStateTopic, "LOCKED"), (lockAvailabilityTopic, "online"),
            (ringAvailabilityTopic, "online")], [], []⟩
        (some ⟨"n", "i"⟩)).device_healthy = false ∧
    countPub (handle_device_info_attempt
        ⟨false, true, none,
          [(lockStateTopic, "LOCKED"), (lockAvailabilityTopic, "online"),
            (ringAvailabilityTopic, "online")], [], []⟩
        (some ⟨"n", "i"⟩)).delivered lockStateTopic "LOCKED" = 0 := by
  decide

/-- C7 (amended). On startup with the latch unset and an empty dedup
cache, `publish_discovery_once` publishes each entity's discovery
descriptor exactly once, then the initial lock state `LOCKED` exactly
once; the lock-state publish goes through the dedup layer and happens
because the cache is empty (it is not an unconditional overriding write);
the `locked` message is queued, the latch is set, and a second call is a
no-op. -/
theorem discovery_then_initial_lock :
    (publish_discovery_once ⟨false, [], []⟩).2
      = [⟨eventConfigTopic, eventDiscoveryPayload, 1, true⟩,
          ⟨lockConfigTopic, lockDiscoveryPayload, 1, true⟩,
          ⟨lockStateTopic, "LOCKED", 1, true⟩] ∧
    countPub (publish_discovery_once ⟨false, [], []⟩).2
        eventConfigTopic eventDiscoveryPayload = 1 ∧
    countPub (publish_discovery_once ⟨false, [], []⟩).2
        lockConfigTopic lockDiscoveryPayload = 1 ∧
    countPub (publish_discovery_once ⟨false, [], []⟩).2
        lockStateTopic "LOCKED" = 1 ∧
    (publish_discovery_once ⟨false, [], []⟩).1.discovery_sent_once = true ∧
    publish_discovery_once (publish_discovery_once ⟨false, [], []⟩).1
      = ((publish_discovery_once ⟨false, [], []⟩).1, []) ∧
    (publish_discovery_once ⟨false, [], []⟩).1.lock_event_queue
      = [lockedMessage] := by
  decide

/-- C7 counterexample. The initial lock-state publish is not unconditional
and does not override the dedup cache: with the lock state already cached
as `LOCKED`, startup delivers no lock-state publish at all, while the
empty cache yields exactly one. -/
theorem discovery_lock_cached_counterexample :
    countPub (publish_discovery_once
        ⟨false, [(lockStateTopic, "LOCKED")], []⟩).2 lockStateTopic "LOCKED" = 0 ∧
    countPub (publish_discovery_once ⟨false, [], []⟩).2
        lockStateTopic "LOCKED" = 1 := by
  decide

/-- C10. For every non-ring, non-empty call-status value, the payload
submitted on the button state topic is the JSON object string with key
`event_type` and the mapped value — `released` for idle, `busy` for
calling, `unknown` for error — never the raw call-status name; the ring
path and the no-value path instead submit bare strings (`pressed`,
`released`, `unknown`), so the state topic carries two payload formats:
the JSON payloads start with the object-brace character (code 123) and
the bare strings do not. -/
theorem call_status_payload_format (w : World) (hw : w.submitted = [])
    (c : CallInfo) (hc : c ≠ CallInfo.ring) :
    (handle_call_status_attempt w (some c)).submitted
      = [(ringStateTopic, c.to_mqtt_event_discovery_event_type)] ∧
    c.to_mqtt_event_discovery_event_type ≠ c.value ∧
    (c.to_mqtt_event_discovery_event_type).data.head? = some (Char.ofNat 123) ∧
    CallInfo.idle.to_mqtt_event_discovery_event_type
      = "\x7b\"event_type\": \"released\"\x7d" ∧
    CallInfo.calling.to_mqtt_event_discovery_event_type
      = "\x7b\"event_type\": \"busy\"\x7d" ∧
    CallInfo.error.to_mqtt_event_discovery_event_type
      = "\x7b\"event_type\": \"unknown\"\x7d" ∧
    (handle_call_status_attempt w (some CallInfo.ring)).submitted
      = [(ringStateTopic, "pressed"), (ringStateTopic, "released")] ∧
    (handle_call_status_attempt w none).submitted
      = [(ringStateTopic, "unknown")] ∧
    ("pressed".data.head? ≠ some (Char.ofNat 123) ∧
      "released".data.head? ≠ some (Char.ofNat 123) ∧
      "unknown".data.head? ≠ some (Char.ofNat 123)) := by
  refine ⟨?_, ?_, ?_, by decide, by decide, by decide, ?_, ?_, by decide⟩
  · cases c with
    | ring => exact absurd rfl hc
    | idle => simp [handle_call_status_attempt, World.publish, hw]
    | calling => simp [handle_call_status_attempt, World.publish, hw]
    | error => simp [handle_call_status_attempt, World.publish, hw]
  · cases c with
    | ring => exact absurd rfl hc
    | idle => decide
    | calling => decide
    | error => decide
  · cases c with
    | ring => exact absurd rfl hc
    | idle => decide
    | calling => decide
    | error => decide
  · simp [handle_call_status_attempt, World.publish, hw, CallButtonStates.value]
  · simp [handle_call_status_attempt, World.publish, hw, CallButtonStates.value]

/-- Witness for `call_status_payload_format` at the idle call status and an
empty submission log. -/
theorem call_status_payload_format_witness :
    (handle_call_status_attempt ⟨true, false, none, [], [], []⟩
        (some CallInfo.idle)).submitted
      = [(ringStateTopic, CallInfo.idle.to_mqtt_event_discovery_event_type)] ∧
    CallInfo.idle.to_mqtt_event_discovery_event_type ≠ CallInfo.idle.value ∧
    (handle_call_status_attempt ⟨true, false, none, [], [], []⟩
        (some CallInfo.ring)).submitted
      = [(ringStateTopic, "pressed"), (ringStateTopic, "released")] ∧
    (handle_call_status_attempt ⟨true, false, none, [], [], []⟩ none).submitted
      = [(ringStateTopic, "unknown")] := by
  have h := call_status_payload_format ⟨true, false, none, [], [], []⟩ rfl
    CallInfo.idle (by decide)
  exact ⟨h.1, h.2.1, h.2.2.2.2.2.2.1, h.2.2.2.2.2.2.2.1⟩
